import Mathlib

/-!
Shallow embedding of `flit_install_py2.py` (a shim that installs a Python
module/package from flit-style metadata) and verification of its
specification claims.

Python strings are modelled as Lean `String`; each Python string primitive
used by the source is translated into an explicit Lean function below, at
the fidelity the source exercises (single-character separators, `\n` line
boundaries, no `{{` escape in templates — none of which the source uses).
Fallible Python operations are modelled in `Except String` where the claim
needs failure to be observable.
-/

namespace FlitPy2

/-- Python `c in s` for a single-character needle `c`. -/
def containsChar (c : Char) (s : String) : Bool :=
  s.toList.contains c

/-- Python `s.split(sep, 1)` for a 1-character `sep`, *under the guard*
`sep in s` (the source only unpacks the result into two names inside such a
guard): left part is everything before the first `sep`, right part is
everything after it. -/
def pySplitFirst (sep : Char) (s : String) : String × String :=
  (String.mk (s.toList.takeWhile (· ≠ sep)),
   String.mk ((s.toList.dropWhile (· ≠ sep)).tail))

/-- Python `s.strip()`: remove leading and trailing whitespace. -/
def pyStrip (s : String) : String :=
  String.mk (((s.toList.dropWhile Char.isWhitespace).reverse.dropWhile
      Char.isWhitespace).reverse)

/-- Python `s.replace(c, '')` for a 1-character pattern: remove every
occurrence of `c`. -/
def pyRemoveChar (c : Char) (s : String) : String :=
  String.mk (s.toList.filter (· ≠ c))

/-- Python `any(c in version for c in '=<>')`. -/
def hasCompareOp (version : String) : Bool :=
  containsChar '=' version || containsChar '<' version || containsChar '>' version

/-- Lines 63–71 of the source: the transformation applied to the part of the
declaration before any `;`.  If it contains `(`, split on the first `(`,
strip the name, delete every `)` from the rest and strip it to get the
version text, prepend `==` when no comparison operator is present, and glue
name and version back together with no separator; otherwise leave it
unchanged. -/
def processNameVersion (name_version : String) : String :=
  if containsChar '(' name_version then
    let p := pySplitFirst '(' name_version
    let name := pyStrip p.1
    let version := pyStrip (pyRemoveChar ')' p.2)
    let version := if !hasCompareOp version then "==" ++ version else version
    name ++ version
  else name_version

/-- The source's `_requires_dist_to_pip_requirement` (lines 53–73): split
off an environment marker at the first `;` (empty if there is none),
rewrite the name/version part, and rejoin the two with `;` — the final
`';'.join([a, b])` always inserts the semicolon, even when the marker is
empty. -/
def _requires_dist_to_pip_requirement (requires_dist : String) : String :=
  let p := if containsChar ';' requires_dist then pySplitFirst ';' requires_dist
           else (requires_dist, "")
  processNameVersion p.1 ++ ";" ++ p.2

/-- The source's `_interpolation_vars` (lines 45–51): the interpolation
context for directory templates — user base path, user site path,
interpreter major and minor version, and installation prefix. -/
structure InterpVars where
  userbase : String
  usersite : String
  py_major : Nat
  py_minor : Nat
  prefix_ : String
deriving DecidableEq, Repr

/-- Looking a replacement-field name up in `_interpolation_vars`; an unknown
name is Python's `KeyError` from `str.format`.  The integer values are
rendered with `str`. -/
def lookupVar (v : InterpVars) (field : String) : Except String String :=
  if field = "userbase" then .ok v.userbase
  else if field = "usersite" then .ok v.usersite
  else if field = "py_major" then .ok (toString v.py_major)
  else if field = "py_minor" then .ok (toString v.py_minor)
  else if field = "prefix" then .ok v.prefix_
  else .error ("KeyError: " ++ field)

mutual

/-- Python `s.format(**_interpolation_vars)` on the character list of `s`:
copy ordinary characters, and replace each `{field}` by the context value of
`field`.  A lone `}` or an unclosed `{` is a `ValueError` (the source's
templates never contain the `{{`/`}}` escapes, so they are not modelled). -/
def formatChars (v : InterpVars) : List Char → Except String (List Char)
  | [] => .ok []
  | '{' :: rest => formatField v [] rest
  | '}' :: _ => .error "ValueError: single closing brace"
  | c :: rest => do
      let out ← formatChars v rest
      .ok (c :: out)

/-- Helper of `formatChars`: accumulate the replacement-field name (in
reverse) until the closing `}`, then substitute. -/
def formatField (v : InterpVars) (acc : List Char) : List Char → Except String (List Char)
  | [] => .error "ValueError: expected closing brace"
  | '}' :: rest => do
      let val ← lookupVar v (String.mk acc.reverse)
      let out ← formatChars v rest
      .ok (val.toList ++ out)
  | c :: rest => formatField v (c :: acc) rest

end

/-- Python `s.format(**_interpolation_vars)` on a string. -/
def pyFormat (v : InterpVars) (s : String) : Except String String := do
  let out ← formatChars v s.toList
  .ok (String.mk out)

/-- A Python value that is either a string or a tuple of strings: the
source's `scripts` variable is a *tuple* in one branch, because line 87 ends
with a stray comma (`scripts = "{prefix}/Scripts",`). -/
inductive PyStrOrTuple where
  | str (s : String)
  | tuple (elems : List String)
deriving DecidableEq, Repr

/-- Calling `.format(**_interpolation_vars)` on such a value: a tuple has no
`format` attribute, so Python raises `AttributeError`. -/
def pyFormatVal (v : InterpVars) : PyStrOrTuple → Except String String
  | .str s => pyFormat v s
  | .tuple _ => .error "AttributeError: tuple object has no attribute format"

/-- The result of `get_dirs`: the `scripts` and `purelib` target
directories. -/
structure Dirs where
  scripts : String
  purelib : String
deriving DecidableEq, Repr

/-- The source's `get_dirs` (lines 75–96).  The platform is the value of
`sys.platform`, compared against `"win32"` as in the source.  In the
user-install branch `purelib` is the raw `site.USER_SITE` value, and the
final dict literal still calls `.format` on it; in the system win32
branch `scripts` is the stray-comma tuple, whose `.format` call fails. -/
def get_dirs (user : Bool) (platform : String) (v : InterpVars) : Except String Dirs := do
  let (scripts, purelib) : PyStrOrTuple × String :=
    if user then
      (.str (if platform == "win32" then
               "\x7buserbase\x7d/Python\x7bpy_major\x7d\x7bpy_minor\x7d/Scripts"
             else "\x7buserbase\x7d/bin"),
       v.usersite)
    else if platform == "win32" then
      (.tuple ["\x7bprefix\x7d/Scripts"], "\x7bprefix\x7d/Lib/site-packages")
    else
      (.str "\x7bprefix\x7d/bin",
       "\x7bprefix\x7d/lib/python\x7bpy_major\x7d.\x7bpy_minor\x7d/site-packages")
  let s ← pyFormatVal v scripts
  let p ← pyFormat v purelib
  .ok ⟨s, p⟩

/-- A read-only view of the relevant filesystem state: the `os.path`
predicates the source queries, plus `os.path.realpath`.  Functions model
queries; the source's mutations are recorded as `FsAction` traces. -/
structure FS where
  isDir : String → Bool
  isFile : String → Bool
  isLink : String → Bool
  lexists : String → Bool
  realpath : String → String

/-- Whether a string starts with the character `c`. -/
def startsWithChar (c : Char) (s : String) : Bool :=
  match s.toList with
  | [] => false
  | x :: _ => x == c

/-- Whether a string ends with the character `c`. -/
def endsWithChar (c : Char) (s : String) : Bool :=
  match s.toList.reverse with
  | [] => false
  | x :: _ => x == c

/-- Python `os.path.join(a, b)` (posix flavour) for the two-argument calls
the source makes: an absolute second component replaces the first,
otherwise the two are joined with `/` unless the first is empty or already
ends in `/`. -/
def pjoin (a b : String) : String :=
  if startsWithChar '/' b then b
  else if a == "" || endsWithChar '/' a then a ++ b
  else a ++ "/" ++ b

/-- Python `os.path.basename(p)`: everything after the last `/`. -/
def basename (p : String) : String :=
  String.mk ((p.toList.reverse.takeWhile (fun x => x ≠ '/')).reverse)

/-- The source's `Module` object: name, resolved path, and whether it is a
package directory. -/
structure Module where
  name : String
  path : String
  is_package : Bool
deriving DecidableEq, Repr

/-- The source's `Module.__init__` (lines 20–35): the module must exist
either as a directory `directory/name` or as a file `directory/name.py`,
but not both; otherwise a `ValueError` is raised (modelled as `.error` with
the formatted message).  The constructor only queries the filesystem, so it
is a pure function of `fs` — it performs no mutation. -/
def Module.init (fs : FS) (name : String) (directory : String) : Except String Module :=
  let pkg_dir := pjoin directory name
  let py_file := pjoin directory (name ++ ".py")
  if fs.isDir pkg_dir && fs.isFile py_file then
    .error ("Both " ++ pkg_dir ++ " and " ++ py_file ++ " exist")
  else if fs.isDir pkg_dir then
    .ok ⟨name, pkg_dir, true⟩
  else if fs.isFile py_file then
    .ok ⟨name, py_file, false⟩
  else
    .error ("No file/folder found for module " ++ name)

/-- The parsed `flit.ini` metadata the source reads through
`configparser` (parsing itself is an external collaborator per the spec):
the required `module` option, the optional `requires` and `dev-requires`
option strings, and the optional `scripts` section as name/entry-point
pairs. -/
structure Config where
  module : String
  requires : Option String
  dev_requires : Option String
  scripts : Option (List (String × String))

/-- Python truthiness of `os.environ.get(var)` as used on line 122: `None`
(variable unset) and the empty string are both falsy. -/
def envTruthy : Option String → Bool
  | none => false
  | some s => !(s == "")

/-- The message of the source's `RootInstallError` (lines 105–108). -/
def rootInstallErrorMsg : String :=
  "Installing packages as root is not recommended. " ++
  "To allow this, set FLIT_ROOT_INSTALL=1 and try again."

/-- The state an `Installer` carries that the modelled methods consult. -/
structure Installer where
  module : Module
  user : Bool
  symlink : Bool
deriving DecidableEq, Repr

/-- The source's `Installer.__init__` (lines 112–125): construct the
`Module` (its `ValueError`s propagate first), resolve `user` (defaulting to
`site.ENABLE_USER_SITE` when the argument is `None`), then refuse to run as
root (`uid = 0`) unless `FLIT_ROOT_INSTALL` is set to a truthy value.  Like
`Module.init` this only queries state; no filesystem mutation happens
here. -/
def Installer.init (cfg : Config) (fs : FS) (uid : Nat) (env : String → Option String)
    (enable_user_site : Bool) (user : Option Bool) (symlink : Bool) :
    Except String Installer := do
  let module ← Module.init fs cfg.module "."
  let user := user.getD enable_user_site
  if uid == 0 && !envTruthy (env "FLIT_ROOT_INSTALL") then
    .error rootInstallErrorMsg
  else
    .ok ⟨module, user, symlink⟩

/-- Python `s.splitlines()` for `\n` line boundaries (the only ones the
ini values can carry here): the empty string has no lines, and a trailing
newline does not open an extra empty line. -/
def pySplitlines (s : String) : List String :=
  if s == "" then []
  else
    let parts := (s.toList.splitOn '\n').map String.mk
    if endsWithChar '\n' s then parts.dropLast else parts

/-- Events of `install_requirements`, in program order: creating the
temporary requirements file (with its newline-joined content), the
synchronous `pip install` subprocess call (with its exit status), and
removing the temporary file. -/
inductive ReqEvent where
  | createTemp (content : String)
  | runPip (userFlag : Bool) (exit : Int)
  | removeTemp
deriving DecidableEq, Repr

/-- The source's `Installer.install_requirements` (lines 147–175): collect
`requires` plus `dev-requires` lines; if there are none, return without
touching the filesystem.  Otherwise translate each line, write them to a
temporary file, and run pip on it inside `try/finally`: the file is removed
after the call whether or not it succeeded, and a nonzero exit still
propagates as `CalledProcessError` after the removal.  The pip exit status
is an input (the subprocess is an external collaborator). -/
def install_requirements (cfg : Config) (user : Bool) (pipExit : Int) :
    Except String Unit × List ReqEvent :=
  let requires_dist := pySplitlines (cfg.requires.getD "")
  let dev_requires := pySplitlines (cfg.dev_requires.getD "")
  let requirements := requires_dist ++ dev_requires
  if requirements.isEmpty then (.ok (), [])
  else
    let reqs := requirements.map _requires_dist_to_pip_requirement
    let events := [ReqEvent.createTemp (String.intercalate "\n" reqs),
                   ReqEvent.runPip user pipExit, ReqEvent.removeTemp]
    if pipExit == 0 then (.ok (), events)
    else (.error "CalledProcessError: pip returned nonzero", events)

/-- Filesystem mutations of `Installer.install`, in program order.
`makedirs` ignores `OSError` (directory already exists) in the source, so
it is recorded unconditionally.  `writeScript` stands for one entry-point
script written by `install_scripts` (file write plus chmod; the win32
`.cmd` wrapper is not modelled — no claim touches it). -/
inductive FsAction where
  | makedirs (d : String)
  | rmtree (p : String)
  | unlink (p : String)
  | symlinkTo (src dst : String)
  | copytree (src dst : String)
  | copy2 (src dst : String)
  | writeScript (path : String)
deriving DecidableEq, Repr

/-- The source's `Installer.install` (lines 177–210): resolve directories
(a failure there, e.g. the win32 system-install tuple bug, aborts with no
action taken), create both target directories, delete anything already at
the destination path (`shutil.rmtree` for a real directory, `os.unlink`
for a file or symlink), install requirements (a pip failure propagates
after the deletions already performed), then symlink or copy the module
and write the entry-point scripts. -/
def Installer.install (inst : Installer) (cfg : Config) (fs : FS) (platform : String)
    (v : InterpVars) (pipExit : Int) : Except String Unit × List FsAction :=
  match get_dirs inst.user platform v with
  | .error e => (.error e, [])
  | .ok dirs =>
    let acts := [FsAction.makedirs dirs.purelib, FsAction.makedirs dirs.scripts]
    let dst := pjoin dirs.purelib (basename inst.module.path)
    let delActs :=
      if fs.lexists dst then
        if fs.isDir dst && !fs.isLink dst then [FsAction.rmtree dst]
        else [FsAction.unlink dst]
      else []
    match (install_requirements cfg inst.user pipExit).1 with
    | .error e => (.error e, acts ++ delActs)
    | .ok _ =>
      let src := inst.module.path
      let copyActs :=
        if inst.symlink then [FsAction.symlinkTo (fs.realpath src) dst]
        else if fs.isDir src then [FsAction.copytree src dst]
        else [FsAction.copy2 src dst]
      let scriptActs :=
        match cfg.scripts with
        | none => []
        | some defs => defs.map (fun d => FsAction.writeScript (pjoin dirs.scripts d.1))
      (.ok (), acts ++ delActs ++ copyActs ++ scriptActs)

end FlitPy2

namespace FlitPy2

/-- A concrete interpolation context used for evaluations. -/
def exampleVars : InterpVars :=
  { userbase := "/home/u/.local", usersite := "/home/u/.local/lib/python2.7/site-packages",
    py_major := 2, py_minor := 7, prefix_ := "/usr" }

/-- Python `s.split(sep, 1)` for a 1-character `sep`, without any guard:
two parts when `sep` occurs, otherwise the one-element list holding `s`.
This operation itself never fails. -/
def pySplit1 (sep : Char) (s : String) : List String :=
  if containsChar sep s then [(pySplitFirst sep s).1, (pySplitFirst sep s).2] else [s]

/-- Python tuple unpacking `a, b = lst`: a `ValueError` unless the list has
exactly two elements. -/
def pyUnpack2 : List String → Except String (String × String)
  | [a, b] => .ok (a, b)
  | _ => .error "ValueError: not exactly two values to unpack"

/-- The source's `_requires_dist_to_pip_requirement` again, but with every
fallible Python operation it performs made explicit in `Except`: the two
`split(c, 1)` results are consumed by tuple unpacking, which raises unless
the split produced exactly two parts.  All other operations it uses
(`in`, `strip`, `replace`, `join`) are total.  Used to settle the claim
that the translation never fails. -/
def _requires_dist_to_pip_requirement_checked (requires_dist : String) :
    Except String String := do
  let p ←
    if containsChar ';' requires_dist then
      pyUnpack2 (pySplit1 ';' requires_dist)
    else .ok (requires_dist, "")
  let name_version ←
    if containsChar '(' p.1 then do
      let q ← pyUnpack2 (pySplit1 '(' p.1)
      let name := pyStrip q.1
      let version := pyStrip (pyRemoveChar ')' q.2)
      let version := if !hasCompareOp version then "==" ++ version else version
      .ok (name ++ version)
    else .ok p.1
  .ok (name_version ++ ";" ++ p.2)

/-- A filesystem in which `mypkg` exists both as the package directory
`./mypkg` and as the file `./mypkg.py`. -/
def fsBothLayouts : FS :=
  { isDir := fun p => p == "./mypkg", isFile := fun p => p == "./mypkg.py",
    isLink := fun _ => false, lexists := fun _ => false, realpath := fun p => p }

/-- A filesystem in which `mypkg` exists only as the package directory
`./mypkg`. -/
def fsPkgOnly : FS :=
  { isDir := fun p => p == "./mypkg", isFile := fun _ => false,
    isLink := fun _ => false, lexists := fun _ => false, realpath := fun p => p }

/-- A metadata file declaring only the module `mypkg`. -/
def cfgBare : Config :=
  { module := "mypkg", requires := none, dev_requires := none, scripts := none }

/-- A metadata file declaring module `mypkg` and one requirement. -/
def cfgOneReq : Config :=
  { module := "mypkg", requires := some "foo (1.2)", dev_requires := none, scripts := none }

/-- An environment with no variables set. -/
def envUnset : String → Option String := fun _ => none

/-- An environment in which `FLIT_ROOT_INSTALL` is set, but to the empty
string. -/
def envEmptyOverride : String → Option String :=
  fun k => if k == "FLIT_ROOT_INSTALL" then some "" else none

/-- An installer for the `mypkg` package directory, system-wide, copying. -/
def instSystemCopy : Installer :=
  { module := { name := "mypkg", path := "./mypkg", is_package := true },
    user := false, symlink := false }

/-- The destination `Installer.install` computes for `instSystemCopy` under
`exampleVars` on a non-win32 platform. -/
def exampleDst : String := "/usr/lib/python2.7/site-packages/mypkg"

/-- A filesystem in which the destination already exists as a real
directory, and the module exists as the package directory `./mypkg`. -/
def fsDstExists : FS :=
  { isDir := fun p => p == "./mypkg" || p == exampleDst, isFile := fun _ => false,
    isLink := fun _ => false, lexists := fun p => p == exampleDst, realpath := fun p => p }

/-- Appending two `String.mk` lists is `String.mk` of the appended lists. -/
lemma mk_append (a b : List Char) : String.mk a ++ String.mk b = String.mk (a ++ b) := rfl

/-- Rebuilding a string from its character list is the identity. -/
lemma mk_toList (s : String) : String.mk s.toList = s := rfl

/-- The empty string is right-neutral for string append. -/
lemma str_append_empty (s : String) : s ++ "" = s := by
  calc s ++ "" = String.mk (s.toList ++ []) := rfl
    _ = String.mk s.toList := by rw [List.append_nil]
    _ = s := rfl

/-- Splitting a character list at the first occurrence of `c`: the pieces
reassemble to the original list, and the prefix piece is `c`-free. -/
lemma takeWhile_first_occurrence (c : Char) :
    ∀ l : List Char, l.contains c = true →
      l.takeWhile (fun x => x ≠ c) ++ c :: (l.dropWhile (fun x => x ≠ c)).tail = l ∧
      (l.takeWhile (fun x => x ≠ c)).contains c = false := by
  intro l hl
  induction l with
  | nil => simp at hl
  | cons a as ih =>
    by_cases hac : a = c
    · subst hac
      simp [List.takeWhile_cons, List.dropWhile_cons]
    · have has : as.contains c = true := by
        simpa [List.contains_cons, hac, Ne.symm hac] using hl
      obtain ⟨h1, h2⟩ := ih has
      refine ⟨?_, ?_⟩
      · simpa [List.takeWhile_cons, hac] using h1
      · simpa [List.takeWhile_cons, List.contains_cons, hac, Ne.symm hac] using h2

/-- String-level reading of `takeWhile_first_occurrence` for
`pySplitFirst`: when `c` occurs in `s`, the two parts surround the first
`c`, and the first part is `c`-free. -/
lemma pySplitFirst_recombine (c : Char) (s : String) (h : containsChar c s = true) :
    (pySplitFirst c s).1 ++ String.mk [c] ++ (pySplitFirst c s).2 = s ∧
    containsChar c (pySplitFirst c s).1 = false := by
  obtain ⟨h1, h2⟩ := takeWhile_first_occurrence c s.toList h
  refine ⟨?_, ?_⟩
  · calc (pySplitFirst c s).1 ++ String.mk [c] ++ (pySplitFirst c s).2
        = String.mk (s.toList.takeWhile (fun x => x ≠ c) ++
            c :: (s.toList.dropWhile (fun x => x ≠ c)).tail) := by
          simp [pySplitFirst, mk_append]
    _ = String.mk s.toList := by rw [h1]
    _ = s := rfl
  · simpa [pySplitFirst, containsChar] using h2

/-- C1: evaluation of `get_dirs` at a fixed interpolation context for all
four (forUser, platform) combinations of the spec's case table.  The three
combinations other than (system, windows) return exactly the substituted
template strings; (system, windows) does not return a layout at all — the
stray trailing comma on line 87 makes `scripts` a tuple, and calling
`.format` on the tuple raises `AttributeError`, contradicting the table row
`scripts = (prefix)/Scripts`. -/
theorem get_dirs_win32_system_tuple_bug :
    get_dirs true "win32" exampleVars =
      .ok ⟨"/home/u/.local/Python27/Scripts",
           "/home/u/.local/lib/python2.7/site-packages"⟩ ∧
    get_dirs true "linux2" exampleVars =
      .ok ⟨"/home/u/.local/bin", "/home/u/.local/lib/python2.7/site-packages"⟩ ∧
    get_dirs false "linux2" exampleVars =
      .ok ⟨"/usr/bin", "/usr/lib/python2.7/site-packages"⟩ ∧
    get_dirs false "win32" exampleVars =
      .error "AttributeError: tuple object has no attribute format" :=
  ⟨rfl, rfl, rfl, rfl⟩

/-- C2 counterexample: `translate("foo (1.2)")` is not `"foo==1.2"` — the
final join appends a semicolon even when the environment marker is
empty. -/
theorem translate_example_no_semicolon_counterexample :
    _requires_dist_to_pip_requirement "foo (1.2)" ≠ "foo==1.2" := by decide

/-- C2 amended: `translate("foo (1.2)")` is exactly `"foo==1.2;"` and
`translate("foo (>=1.2)")` is exactly `"foo>=1.2;"` — the constraint
translation is as claimed, but each result carries the trailing semicolon
that the unconditional marker join of §4.2 step 6 produces. -/
theorem translate_version_examples_with_trailing_semicolon :
    _requires_dist_to_pip_requirement "foo (1.2)" = "foo==1.2;" ∧
    _requires_dist_to_pip_requirement "foo (>=1.2)" = "foo>=1.2;" :=
  ⟨rfl, rfl⟩

/-- C3: on any declaration without `;`, `translate` returns the processed
left-hand side followed by a single trailing `;` (the empty marker segment
is preserved), and in particular `translate("foo")` is exactly `"foo;"`. -/
theorem translate_empty_marker_trailing_semicolon (s : String)
    (h : containsChar ';' s = false) :
    _requires_dist_to_pip_requirement s = processNameVersion s ++ ";" ∧
    _requires_dist_to_pip_requirement "foo" = "foo;" := by
  refine ⟨?_, rfl⟩
  unfold _requires_dist_to_pip_requirement
  rw [h]
  simp [str_append_empty]

/-- Witness for C3 at the concrete declaration `"bar (2.0)"`. -/
theorem translate_empty_marker_trailing_semicolon_witness :
    containsChar ';' "bar (2.0)" = false ∧
    (_requires_dist_to_pip_requirement "bar (2.0)" = processNameVersion "bar (2.0)" ++ ";" ∧
     _requires_dist_to_pip_requirement "foo" = "foo;") :=
  ⟨by decide, translate_empty_marker_trailing_semicolon "bar (2.0)" (by decide)⟩

/-- C6: on any declaration containing `;`, `translate` splits at the first
`;` only — the declaration decomposes as `lhs ++ ";" ++ marker` with `lhs`
semicolon-free — and the marker reappears verbatim after the joining `;`,
with no trimming; in particular
`translate("foo (>=1.0); extra == 'dev'")` is `"foo>=1.0; extra == 'dev'"`
(note the marker keeps its leading space). -/
theorem translate_splits_on_first_semicolon (s : String)
    (h : containsChar ';' s = true) :
    ∃ lhs marker,
      s = lhs ++ ";" ++ marker ∧
      containsChar ';' lhs = false ∧
      _requires_dist_to_pip_requirement s = processNameVersion lhs ++ ";" ++ marker ∧
      _requires_dist_to_pip_requirement "foo (>=1.0); extra == 'dev'"
        = "foo>=1.0; extra == 'dev'" := by
  obtain ⟨h1, h2⟩ := pySplitFirst_recombine ';' s h
  refine ⟨(pySplitFirst ';' s).1, (pySplitFirst ';' s).2, ?_, h2, ?_, rfl⟩
  · exact h1.symm
  · unfold _requires_dist_to_pip_requirement
    rw [h]
    simp

/-- Witness for C6 at the concrete declaration `"foo; bar"`. -/
theorem translate_splits_on_first_semicolon_witness :
    containsChar ';' "foo; bar" = true ∧
    ∃ lhs marker,
      "foo; bar" = lhs ++ ";" ++ marker ∧
      containsChar ';' lhs = false ∧
      _requires_dist_to_pip_requirement "foo; bar" = processNameVersion lhs ++ ";" ++ marker ∧
      _requires_dist_to_pip_requirement "foo (>=1.0); extra == 'dev'"
        = "foo>=1.0; extra == 'dev'" :=
  ⟨by decide, translate_splits_on_first_semicolon "foo; bar" (by decide)⟩

/-- C7: whenever the left-hand part of the declaration (before any `;`)
contains `(`, it decomposes at the first `(` as `name ++ "(" ++ rest` with
`name` paren-free; the version text is `rest` with every `)` removed and
whitespace stripped; `==` is prepended exactly when the version text has
none of `=`, `<`, `>`; and the output's left-hand side is the stripped
name directly followed by the constraint with no separator. -/
theorem translate_paren_constraint_rule (s name_version env_mark : String)
    (hnv : name_version = if containsChar ';' s then (pySplitFirst ';' s).1 else s)
    (hem : env_mark = if containsChar ';' s then (pySplitFirst ';' s).2 else "")
    (hp : containsChar '(' name_version = true) :
    ∃ name rest,
      name_version = name ++ "(" ++ rest ∧
      containsChar '(' name = false ∧
      _requires_dist_to_pip_requirement s =
        pyStrip name ++
          (if !hasCompareOp (pyStrip (pyRemoveChar ')' rest)) then
            "==" ++ pyStrip (pyRemoveChar ')' rest)
          else pyStrip (pyRemoveChar ')' rest)) ++ ";" ++ env_mark := by
  obtain ⟨h1, h2⟩ := pySplitFirst_recombine '(' name_version hp
  refine ⟨(pySplitFirst '(' name_version).1, (pySplitFirst '(' name_version).2,
          h1.symm, h2, ?_⟩
  have hbase : _requires_dist_to_pip_requirement s =
      processNameVersion name_version ++ ";" ++ env_mark := by
    by_cases hs : containsChar ';' s = true
    · simp only [hs, if_true] at hnv hem
      subst hnv
      subst hem
      unfold _requires_dist_to_pip_requirement
      rw [hs]
      simp
    · simp only [hs, if_false] at hnv hem
      subst hnv
      subst hem
      unfold _requires_dist_to_pip_requirement
      rw [Bool.not_eq_true] at hs
      rw [hs]
      simp
  rw [hbase]
  unfold processNameVersion
  rw [hp]
  simp

/-- Witness for C7 at the concrete declaration `"foo (1.2); m"`. -/
theorem translate_paren_constraint_rule_witness :
    ("foo (1.2)" = if containsChar ';' "foo (1.2); m" then
        (pySplitFirst ';' "foo (1.2); m").1 else "foo (1.2); m") ∧
    (" m" = if containsChar ';' "foo (1.2); m" then
        (pySplitFirst ';' "foo (1.2); m").2 else "") ∧
    containsChar '(' "foo (1.2)" = true ∧
    ∃ name rest,
      "foo (1.2)" = name ++ "(" ++ rest ∧
      containsChar '(' name = false ∧
      _requires_dist_to_pip_requirement "foo (1.2); m" =
        pyStrip name ++
          (if !hasCompareOp (pyStrip (pyRemoveChar ')' rest)) then
            "==" ++ pyStrip (pyRemoveChar ')' rest)
          else pyStrip (pyRemoveChar ')' rest)) ++ ";" ++ " m" :=
  ⟨by decide, by decide, by decide,
   translate_paren_constraint_rule "foo (1.2); m" "foo (1.2)" " m"
     (by decide) (by decide) (by decide)⟩

/-- C9: the translation is total — with every fallible Python operation it
performs made explicit (the only candidates are the two guarded
tuple-unpackings of `split` results), it succeeds on every input string,
returning the same best-effort string as the plain model. -/
theorem translate_never_fails (s : String) :
    _requires_dist_to_pip_requirement_checked s =
      .ok (_requires_dist_to_pip_requirement s) := by
  unfold _requires_dist_to_pip_requirement_checked _requires_dist_to_pip_requirement
  by_cases h1 : containsChar ';' s = true
  · by_cases h2 : containsChar '(' (pySplitFirst ';' s).1 = true
    · simp [h1, h2, pySplit1, pyUnpack2, processNameVersion, Bind.bind, Except.bind]
    · simp [h1, h2, pySplit1, pyUnpack2, processNameVersion, Bind.bind, Except.bind]
  · by_cases h2 : containsChar '(' s = true
    · simp [h1, h2, pySplit1, pyUnpack2, processNameVersion, Bind.bind, Except.bind]
    · simp [h1, h2, pySplit1, pyUnpack2, processNameVersion, Bind.bind, Except.bind]

/-- C4: `Module` construction fails exactly when the module name does not
resolve to exactly one of a package directory or a same-named `.py` file:
with both present it raises the ambiguous-layout `ValueError`, with
neither present the missing-module `ValueError`, and it succeeds exactly
when the two existence checks disagree.  The constructor is modelled as a
pure function of the filesystem view: it performs no mutation, so a
failure aborts before any mutation. -/
theorem module_init_requires_exactly_one_layout (fs : FS) (name directory : String) :
    (fs.isDir (pjoin directory name) = true ∧
       fs.isFile (pjoin directory (name ++ ".py")) = true →
      Module.init fs name directory =
        .error ("Both " ++ pjoin directory name ++ " and " ++
                pjoin directory (name ++ ".py") ++ " exist")) ∧
    (fs.isDir (pjoin directory name) = false ∧
       fs.isFile (pjoin directory (name ++ ".py")) = false →
      Module.init fs name directory =
        .error ("No file/folder found for module " ++ name)) ∧
    ((∃ m, Module.init fs name directory = .ok m) ↔
      fs.isDir (pjoin directory name) ≠ fs.isFile (pjoin directory (name ++ ".py"))) := by
  unfold Module.init
  rcases hd : fs.isDir (pjoin directory name) <;>
    rcases hf : fs.isFile (pjoin directory (name ++ ".py")) <;>
      simp [hd, hf]

/-- Witness for C4 on the filesystem where both `./mypkg` and `./mypkg.py`
exist. -/
theorem module_init_requires_exactly_one_layout_witness :
    (fsBothLayouts.isDir (pjoin "." "mypkg") = true ∧
       fsBothLayouts.isFile (pjoin "." ("mypkg" ++ ".py")) = true →
      Module.init fsBothLayouts "mypkg" "." =
        .error ("Both " ++ pjoin "." "mypkg" ++ " and " ++
                pjoin "." ("mypkg" ++ ".py") ++ " exist")) ∧
    (fsBothLayouts.isDir (pjoin "." "mypkg") = false ∧
       fsBothLayouts.isFile (pjoin "." ("mypkg" ++ ".py")) = false →
      Module.init fsBothLayouts "mypkg" "." =
        .error ("No file/folder found for module " ++ "mypkg")) ∧
    ((∃ m, Module.init fsBothLayouts "mypkg" "." = .ok m) ↔
      fsBothLayouts.isDir (pjoin "." "mypkg") ≠
        fsBothLayouts.isFile (pjoin "." ("mypkg" ++ ".py"))) :=
  module_init_requires_exactly_one_layout fsBothLayouts "mypkg" "."

/-- C5 counterexample: with elevated privileges and `FLIT_ROOT_INSTALL`
*set* — but set to the empty string — `Installer` construction still
raises the root-install error, because the source tests Python truthiness
of the value, not mere presence; this contradicts the claim that no such
error is raised whenever the override is set. -/
theorem installer_init_empty_override_counterexample :
    envEmptyOverride "FLIT_ROOT_INSTALL" = some "" ∧
    Installer.init cfgBare fsPkgOnly 0 envEmptyOverride true none false =
      .error rootInstallErrorMsg :=
  ⟨rfl, by rfl⟩

/-- C5 amended: provided the module itself resolves, `Installer`
construction with uid 0 raises the root-install error exactly when
`FLIT_ROOT_INSTALL` is unset *or set to the falsy empty string*; with the
override set to a non-empty value, or with a nonzero uid, construction
succeeds.  Construction is modelled as a pure function of its inputs — no
filesystem mutation happens — and the error message spells out the
override mechanism. -/
theorem installer_init_root_guard (cfg : Config) (fs : FS) (uid : Nat)
    (env : String → Option String) (eus : Bool) (user : Option Bool) (symlink : Bool)
    (m : Module) (hm : Module.init fs cfg.module "." = .ok m) :
    (uid = 0 ∧ envTruthy (env "FLIT_ROOT_INSTALL") = false →
      Installer.init cfg fs uid env eus user symlink = .error rootInstallErrorMsg) ∧
    (uid ≠ 0 ∨ envTruthy (env "FLIT_ROOT_INSTALL") = true →
      Installer.init cfg fs uid env eus user symlink =
        .ok ⟨m, user.getD eus, symlink⟩) ∧
    rootInstallErrorMsg =
      "Installing packages as root is not recommended. " ++
      "To allow this, set FLIT_ROOT_INSTALL=1 and try again." := by
  unfold Installer.init
  rw [hm]
  refine ⟨?_, ?_, rfl⟩
  · rintro ⟨h0, henv⟩
    subst h0
    simp [henv, Bind.bind, Except.bind]
  · rintro (h0 | henv)
    · simp [h0, Bind.bind, Except.bind]
    · simp [henv, Bind.bind, Except.bind]

/-- Witness for C5 (amended) with uid 0 and an entirely unset
environment. -/
theorem installer_init_root_guard_witness :
    (0 = 0 ∧ envTruthy (envUnset "FLIT_ROOT_INSTALL") = false →
      Installer.init cfgBare fsPkgOnly 0 envUnset true none false =
        .error rootInstallErrorMsg) ∧
    (0 ≠ 0 ∨ envTruthy (envUnset "FLIT_ROOT_INSTALL") = true →
      Installer.init cfgBare fsPkgOnly 0 envUnset true none false =
        .ok ⟨⟨"mypkg", "./mypkg", true⟩, (none : Option Bool).getD true, false⟩) ∧
    rootInstallErrorMsg =
      "Installing packages as root is not recommended. " ++
      "To allow this, set FLIT_ROOT_INSTALL=1 and try again." :=
  installer_init_root_guard cfgBare fsPkgOnly 0 envUnset true none false
    ⟨"mypkg", "./mypkg", true⟩ (by rfl)

/-- C8: in `install_requirements`, whenever the temporary requirements file
is created, the event sequence is exactly create, subprocess call, remove —
so the removal is unconditional and happens after the call on every exit
path; the removal happens exactly when the file was created; and the fatal
`CalledProcessError` outcome occurs exactly when pip exited nonzero after
actually being invoked — the cleanup neither suppresses the failure nor
fails to run before it propagates. -/
theorem install_requirements_cleanup_after_pip (cfg : Config) (user : Bool) (pipExit : Int) :
    (∀ c, ReqEvent.createTemp c ∈ (install_requirements cfg user pipExit).2 →
      (install_requirements cfg user pipExit).2 =
        [ReqEvent.createTemp c, ReqEvent.runPip user pipExit, ReqEvent.removeTemp]) ∧
    (ReqEvent.removeTemp ∈ (install_requirements cfg user pipExit).2 ↔
      ∃ c, ReqEvent.createTemp c ∈ (install_requirements cfg user pipExit).2) ∧
    ((install_requirements cfg user pipExit).1 =
        .error "CalledProcessError: pip returned nonzero" ↔
      pipExit ≠ 0 ∧ ReqEvent.removeTemp ∈ (install_requirements cfg user pipExit).2) := by
  unfold install_requirements
  by_cases hL : (pySplitlines (cfg.requires.getD "") ++
      pySplitlines (cfg.dev_requires.getD "")).isEmpty = true
  · simp [hL]
  · by_cases hp : (pipExit == 0) = true
    · rw [beq_iff_eq] at hp
      simp [hL, hp]
    · rw [beq_iff_eq] at hp
      simp [hL, hp]

/-- Witness for C8 with one declared requirement and a failing pip. -/
theorem install_requirements_cleanup_after_pip_witness :
    (∀ c, ReqEvent.createTemp c ∈ (install_requirements cfgOneReq true 1).2 →
      (install_requirements cfgOneReq true 1).2 =
        [ReqEvent.createTemp c, ReqEvent.runPip true 1, ReqEvent.removeTemp]) ∧
    (ReqEvent.removeTemp ∈ (install_requirements cfgOneReq true 1).2 ↔
      ∃ c, ReqEvent.createTemp c ∈ (install_requirements cfgOneReq true 1).2) ∧
    ((install_requirements cfgOneReq true 1).1 =
        .error "CalledProcessError: pip returned nonzero" ↔
      (1 : Int) ≠ 0 ∧ ReqEvent.removeTemp ∈ (install_requirements cfgOneReq true 1).2) :=
  install_requirements_cleanup_after_pip cfgOneReq true 1

/-- C10: when the computed destination inside `purelib` already exists,
`install` deletes it right after the two `makedirs` calls and before
anything else — `rmtree` when it is a real (non-symlink) directory,
`unlink` otherwise — and if the run succeeds, the module is then
symlinked or copied to that same destination (which therefore replaces,
never merges with, the previous contents). -/
theorem install_replaces_existing_destination (inst : Installer) (cfg : Config) (fs : FS)
    (platform : String) (v : InterpVars) (pipExit : Int) (dirs : Dirs) (dst : String)
    (hd : get_dirs inst.user platform v = .ok dirs)
    (hdst : dst = pjoin dirs.purelib (basename inst.module.path))
    (hex : fs.lexists dst = true) :
    ∃ rest,
      (Installer.install inst cfg fs platform v pipExit).2 =
        FsAction.makedirs dirs.purelib :: FsAction.makedirs dirs.scripts ::
          (if fs.isDir dst && !fs.isLink dst then FsAction.rmtree dst
           else FsAction.unlink dst) :: rest ∧
      ((Installer.install inst cfg fs platform v pipExit).1 = .ok () →
        FsAction.symlinkTo (fs.realpath inst.module.path) dst ∈ rest ∨
        FsAction.copytree inst.module.path dst ∈ rest ∨
        FsAction.copy2 inst.module.path dst ∈ rest) := by
  subst hdst
  by_cases hdel : (fs.isDir (pjoin dirs.purelib (basename inst.module.path)) &&
      !fs.isLink (pjoin dirs.purelib (basename inst.module.path))) = true <;>
  · rcases hr : (install_requirements cfg inst.user pipExit).1 with e | u
    · refine ⟨[], ?_, ?_⟩
      · simp [Installer.install, hd, hr, hex, hdel]
      · intro hok
        exfalso
        simp [Installer.install, hd, hr, hex] at hok
    · refine ⟨(if inst.symlink then
          [FsAction.symlinkTo (fs.realpath inst.module.path)
            (pjoin dirs.purelib (basename inst.module.path))]
        else if fs.isDir inst.module.path then
          [FsAction.copytree inst.module.path
            (pjoin dirs.purelib (basename inst.module.path))]
        else
          [FsAction.copy2 inst.module.path
            (pjoin dirs.purelib (basename inst.module.path))]) ++
        (match cfg.scripts with
         | none => []
         | some defs => defs.map (fun d => FsAction.writeScript (pjoin dirs.scripts d.1))),
        ?_, ?_⟩
      · simp [Installer.install, hd, hr, hex, hdel]
      · intro _
        by_cases hsym : inst.symlink = true
        · left
          simp [hsym]
        · by_cases hdir : fs.isDir inst.module.path = true
          · right; left
            simp [hsym, hdir]
          · right; right
            simp [hsym, hdir]

/-- Witness for C10: the destination directory already exists and is a real
directory, so it is removed with `rmtree` before the copy. -/
theorem install_replaces_existing_destination_witness :
    get_dirs instSystemCopy.user "linux2" exampleVars =
      .ok ⟨"/usr/bin", "/usr/lib/python2.7/site-packages"⟩ ∧
    exampleDst =
      pjoin (Dirs.mk "/usr/bin" "/usr/lib/python2.7/site-packages").purelib
        (basename instSystemCopy.module.path) ∧
    fsDstExists.lexists exampleDst = true ∧
    ∃ rest,
      (Installer.install instSystemCopy cfgBare fsDstExists "linux2" exampleVars 0).2 =
        FsAction.makedirs (Dirs.mk "/usr/bin" "/usr/lib/python2.7/site-packages").purelib ::
        FsAction.makedirs (Dirs.mk "/usr/bin" "/usr/lib/python2.7/site-packages").scripts ::
          (if fsDstExists.isDir exampleDst && !fsDstExists.isLink exampleDst then
            FsAction.rmtree exampleDst
           else FsAction.unlink exampleDst) :: rest ∧
      ((Installer.install instSystemCopy cfgBare fsDstExists "linux2" exampleVars 0).1 =
          .ok () →
        FsAction.symlinkTo (fsDstExists.realpath instSystemCopy.module.path) exampleDst ∈ rest ∨
        FsAction.copytree instSystemCopy.module.path exampleDst ∈ rest ∨
        FsAction.copy2 instSystemCopy.module.path exampleDst ∈ rest) :=
  ⟨by rfl, by rfl, by rfl,
   install_replaces_existing_destination instSystemCopy cfgBare fsDstExists "linux2"
     exampleVars 0 ⟨"/usr/bin", "/usr/lib/python2.7/site-packages"⟩ exampleDst
     (by rfl) (by rfl) (by rfl)⟩

end FlitPy2
